import Mathlib

/-!
Verification of the admin-dashboard data-view layer of the Smart Hostel
Grievance Analyzer: the fetch orchestrator (Dashboard.jsx, here the
fetchDashboardData / calculateSummaryStats functions), the filter engine
(ExcelStyleFilters.jsx), and the pagination engine (IssueTable.jsx).

Embedding conventions:
- A JavaScript field that is missing (undefined/null) is represented with
  Option, where none stands for the absent value.  For the string-valued
  dimension projections (priority label, hostel, ...) the code only ever
  tests truthiness, which conflates undefined, null and the empty string;
  the embedding represents all falsy projections as none.
- Where the distinction between a falsy and a missing value matters (the
  complaint counters and trend deltas, which flow through the JavaScript
  or-operator and a typeof check), values are modelled with the JVal type
  below, which keeps numbers, strings and undefined apart.
- Machine numbers are modelled as Int/Nat; the counters involved are small
  integers, and no arithmetic in the modelled code can overflow a JS float.
-/

/-- JavaScript-like scalar value, used where the code's truthiness and
typeof checks matter.  A missing field (undefined or null) is
JVal.undef.  (NaN is not representable; no modelled claim involves it.) -/
inductive JVal where
  | num (n : Int)
  | str (s : String)
  | undef
deriving DecidableEq

/-- JavaScript truthiness of a JVal: 0, the empty string and undefined are
falsy, everything else is truthy. -/
def JVal.truthy : JVal → Bool
  | .num n => n != 0
  | .str s => s != ""
  | .undef => false

/-- The JavaScript or-operator on values: returns the left operand when it
is truthy, otherwise the right operand. -/
def jsOr (a b : JVal) : JVal := if a.truthy then a else b

/-- Models the guard (typeof v === 'number' ? v : 0): a number passes
through, anything else becomes 0. -/
def jsToNumber : JVal → Int
  | .num n => n
  | _ => 0

/-- An issue record as consumed by the dashboard view layer.  Each field
holds the projection the code actually reads: priorityLabel is
issue.priority?.label, priorityBare is issue.priority when the legacy
payload carries a bare string, slaRisk is issue.sla?.risk, and
complaintsTotal / complaintCount are issue.complaints?.total and
issue.complaint_count. -/
structure Issue where
  status : Option String := none
  priorityLabel : Option String := none
  priorityBare : Option String := none
  severityLabel : Option String := none
  healthLabel : Option String := none
  category : Option String := none
  hostel : Option String := none
  slaRisk : Option String := none
  complaintsTotal : JVal := .undef
  complaintCount : JVal := .undef
deriving DecidableEq

/-- The six filterable dimensions (the keys of the filters object). -/
inductive Dimension where
  | priority
  | severity
  | health
  | category
  | hostel
  | slaStatus
deriving DecidableEq

/-- The projection each dimension reads off an issue; shared by the filter
test in IssueTable.jsx and by getUniqueValues in ExcelStyleFilters.jsx,
which read exactly the same fields. -/
def projectDim (d : Dimension) (issue : Issue) : Option String :=
  match d with
  | .priority => issue.priorityLabel
  | .severity => issue.severityLabel
  | .health => issue.healthLabel
  | .category => issue.category
  | .hostel => issue.hostel
  | .slaStatus => issue.slaRisk

/-- The filters object of ExcelStyleFilters.jsx: one admitted-value list
per dimension.  A missing key in the JavaScript object behaves as an empty
list (the code tests filters.key?.length > 0). -/
structure FilterState where
  priority : List String := []
  severity : List String := []
  health : List String := []
  category : List String := []
  hostel : List String := []
  slaStatus : List String := []
deriving DecidableEq

/-- Reads one dimension's admitted list. -/
def FilterState.getDim (f : FilterState) (d : Dimension) : List String :=
  match d with
  | .priority => f.priority
  | .severity => f.severity
  | .health => f.health
  | .category => f.category
  | .hostel => f.hostel
  | .slaStatus => f.slaStatus

/-- Replaces one dimension's admitted list, leaving the others untouched
(the spread in the handlers of ExcelStyleFilters.jsx). -/
def FilterState.setDim (f : FilterState) (d : Dimension) (vs : List String) : FilterState :=
  match d with
  | .priority => { f with priority := vs }
  | .severity => { f with severity := vs }
  | .health => { f with health := vs }
  | .category => { f with category := vs }
  | .hostel => { f with hostel := vs }
  | .slaStatus => { f with slaStatus := vs }

/-- One dimension block of the filter in IssueTable.jsx: when the admitted
list is non-empty, the issue's projected value must be truthy (present)
and a member of the list. -/
def dimPass (admitted : List String) (value : Option String) : Bool :=
  if admitted.isEmpty then true
  else
    match value with
    | none => false
    | some s => admitted.contains s

/-- The per-issue filter predicate of IssueTable.jsx: resolved issues are
rejected, then each of the six dimension blocks is applied in turn. -/
def issuePasses (filters : FilterState) (issue : Issue) : Bool :=
  issue.status != some "RESOLVED"
    && dimPass filters.priority (projectDim .priority issue)
    && dimPass filters.severity (projectDim .severity issue)
    && dimPass filters.health (projectDim .health issue)
    && dimPass filters.category (projectDim .category issue)
    && dimPass filters.hostel (projectDim .hostel issue)
    && dimPass filters.slaStatus (projectDim .slaStatus issue)

/-- filteredIssues of IssueTable.jsx: early [] on an empty input, otherwise
the filter over the issue list. -/
def filteredIssues (filters : FilterState) (issues : List Issue) : List Issue :=
  if issues.isEmpty then []
  else issues.filter (fun issue => issuePasses filters issue)

/-- The fixed page size of IssueTable.jsx. -/
def itemsPerPage : Nat := 20

/-- totalPages of IssueTable.jsx: Math.ceil(filteredIssues.length / 20),
written as ceiling division on naturals.  Note the code applies no floor
at 1. -/
def totalPages (filteredCount : Nat) : Nat :=
  (filteredCount + itemsPerPage - 1) / itemsPerPage

/-- Modelled from the spec's words for comparison: max(1, ceil(count /
pageSize)), i.e. the page count floored at 1. -/
def specTotalPages (filteredCount : Nat) : Nat :=
  max 1 ((filteredCount + itemsPerPage - 1) / itemsPerPage)

/-- goToPage of IssueTable.jsx: the new currentPage is the requested page
when it lies in [1, totalPages], otherwise currentPage is unchanged. -/
def goToPage (totalPages page currentPage : Nat) : Nat :=
  if 1 ≤ page ∧ page ≤ totalPages then page else currentPage

/-- paginationNumbers of IssueTable.jsx, with each JavaScript for-loop
rendered as a List.range' of the same start and length (maxVisible = 5). -/
def paginationNumbers (currentPage totalPages : Nat) : List Nat :=
  if totalPages ≤ 5 then List.range' 1 totalPages
  else if currentPage ≤ 3 then List.range' 1 5
  else if totalPages - 2 ≤ currentPage then List.range' (totalPages - 4) 5
  else List.range' (currentPage - 2) 5

/-- getUniqueValues of ExcelStyleFilters.jsx: collect the truthy projected
values of a dimension into a set (here: dedup) and sort them.  The
JavaScript default sort on these strings is the lexicographic string
order. -/
def getUniqueValues (key : Dimension) (issues : List Issue) : List String :=
  if issues.isEmpty then []
  else List.insertionSort (fun a b => a ≤ b) ((issues.filterMap (projectDim key)).dedup)

/-- handleValueToggle of ExcelStyleFilters.jsx: flip membership of a value
in the active dimension's admitted list. -/
def toggleValue (f : FilterState) (d : Dimension) (v : String) : FilterState :=
  let current := f.getDim d
  if current.contains v then f.setDim d (current.filter (fun x => x != v))
  else f.setDim d (current ++ [v])

/-- handleSelectAll of ExcelStyleFilters.jsx: admit every value currently
present in the data for the active dimension. -/
def selectAll (issues : List Issue) (f : FilterState) (d : Dimension) : FilterState :=
  f.setDim d (getUniqueValues d issues)

/-- handleSelectNone of ExcelStyleFilters.jsx: empty the active
dimension's admitted list. -/
def selectNone (f : FilterState) (d : Dimension) : FilterState :=
  f.setDim d []

/-- handleClearAllFilters of ExcelStyleFilters.jsx: reset every dimension
to the empty admitted list. -/
def clearAllFilters (_f : FilterState) : FilterState := {}

/-- handleRemoveFilter of ExcelStyleFilters.jsx: drop a single value from
one dimension's admitted list. -/
def removeValue (f : FilterState) (d : Dimension) (v : String) : FilterState :=
  f.setDim d ((f.getDim d).filter (fun x => x != v))

/-- The user actions that produce a new FilterState and synchronously call
onFiltersChange. -/
inductive FilterMutation where
  | toggle (d : Dimension) (v : String)
  | all (d : Dimension)
  | none (d : Dimension)
  | clear
  | remove (d : Dimension) (v : String)

/-- Applies one mutation handler of ExcelStyleFilters.jsx. -/
def applyMutation (issues : List Issue) (m : FilterMutation) (f : FilterState) : FilterState :=
  match m with
  | .toggle d v => toggleValue f d v
  | .all d => selectAll issues f d
  | .none d => selectNone f d
  | .clear => clearAllFilters f
  | .remove d v => removeValue f d v

/-- The filter-relevant state of the table view: the filters prop and
IssueTable's currentPage. -/
structure TableViewState where
  filters : FilterState
  currentPage : Nat

/-- Dispatching a filter mutation through the wiring of the app: the
handler builds a fresh filters object and calls onFiltersChange, the
Dashboard stores it as the table's filters prop, and IssueTable's effect
on [filters] fires (every mutation passes a newly constructed object, so
the dependency always changes) and sets currentPage to 1 before the next
committed page window is computed. -/
def dispatchMutation (issues : List Issue) (m : FilterMutation) (s : TableViewState) : TableViewState :=
  { filters := applyMutation issues m s.filters, currentPage := 1 }

/-- The error object observed in the catch branch of fetchDashboardData:
the message and, when an HTTP response exists, its status
(err.response?.status). -/
structure FetchErr where
  message : Option String := none
  responseStatus : Option Nat := none
deriving DecidableEq

/-- String containment (the JavaScript includes test), via the character
lists. -/
def strIncludes (s sub : String) : Bool :=
  s.data.tails.any (fun t => sub.data.isPrefixOf t)

/-- err.message?.includes('Network Error'): false when the message is
absent. -/
def msgIncludesNetworkError : Option String → Bool
  | Option.none => false
  | Option.some s => strIncludes s "Network Error"

/-- The error-message classification of the catch branch of
fetchDashboardData, in source order: the deliberate no-data error, then
HTTP 404, then HTTP 500 exactly, then a network-error message, then the
generic fallback. -/
def classifyError (e : FetchErr) : String :=
  if e.message = some "No issues data received from server" then
    "Server returned empty data. Please try again."
  else if e.responseStatus = some 404 then
    "Dashboard endpoint not found. Please check configuration."
  else if e.responseStatus = some 500 then
    "Server error. Please try again later."
  else if msgIncludesNetworkError e.message then
    "Network connection failed. Please check your internet."
  else
    "Failed to load dashboard data. Please refresh or try again later."

/-- The issues payload: a JSON object whose issues field may be absent. -/
structure IssuesPayload where
  issues : Option (List Issue) := none
deriving DecidableEq

/-- issuesData?.issues followed by the or-with-[] fallback: the empty list
when the payload or its issues field is absent (an empty array is falsy
only through length, and the fallback is [] in either reading). -/
def issuesOf (issuesData : Option IssuesPayload) : List Issue :=
  match issuesData with
  | Option.none => []
  | Option.some p => p.issues.getD []

/-- The trends payload: the two delta fields the dashboard reads. -/
structure TrendsData where
  critical_change : JVal := .undef
  complaints_change : JVal := .undef
deriving DecidableEq

/-- The summaryStats state of Dashboard.jsx. -/
structure SummaryStats where
  active_issues : Nat
  critical_issues : Nat
  sla_risk_issues : Nat
  complaints_today : Int
  trend_critical_change : JVal
  trend_complaints_change : JVal
deriving DecidableEq

/-- The all-zero summary stats used both as the initial state and as the
reset value in the catch branch. -/
def initialSummaryStats : SummaryStats :=
  { active_issues := 0, critical_issues := 0, sla_risk_issues := 0, complaints_today := 0,
    trend_critical_change := .num 0, trend_complaints_change := .num 0 }

/-- The active-issue filter used throughout Dashboard.jsx: status strictly
unequal to 'RESOLVED' (an absent status passes). -/
def activeIssuesOf (issues : List Issue) : List Issue :=
  issues.filter (fun issue => issue.status != some "RESOLVED")

/-- One issue's contribution to the complaints total:
(issue?.complaints?.total || issue?.complaint_count || 0) followed by the
typeof-number guard. -/
def complaintsContribution (issue : Issue) : Int :=
  jsToNumber (jsOr issue.complaintsTotal (jsOr issue.complaintCount (.num 0)))

/-- Modelled from the claim's words for comparison: the same chain with
nullish coalescing, which takes the left operand whenever it is present,
including a present 0. -/
def nullishOr (a b : JVal) : JVal :=
  match a with
  | .undef => b
  | _ => a

/-- Modelled from the claim's words for comparison: the complaints sum as
the claim states it, with nullish fallbacks instead of truthy ones. -/
def specComplaintsToday (issues : List Issue) : Int :=
  ((activeIssuesOf issues).map
    (fun issue => jsToNumber (nullishOr issue.complaintsTotal (nullishOr issue.complaintCount (.num 0))))).sum

/-- calculateSummaryStats of Dashboard.jsx as a pure function of its four
arguments (the function only reads issuesData and trendsData).  The
try/catch around it can never fire: every step here is total, so the
caught-exception branch that would keep the previous stats is
unreachable in the model. -/
def calculateSummaryStats {H S : Type} (_healthData : Option H) (issuesData : Option IssuesPayload)
    (_slaData : Option S) (trendsData : Option TrendsData) : SummaryStats :=
  let allIssues := issuesOf issuesData
  let activeIssues := activeIssuesOf allIssues
  let criticalCount :=
    (activeIssues.filter (fun issue =>
      issue.priorityLabel == some "CRITICAL" || issue.priorityBare == some "CRITICAL")).length
  let slaRiskCount :=
    (activeIssues.filter (fun issue =>
      issue.slaRisk == some "WARNING" || issue.slaRisk == some "BREACHING")).length
  let totalComplaints := activeIssues.foldl (fun sum issue => sum + complaintsContribution issue) 0
  let criticalTrend :=
    match trendsData with
    | Option.none => JVal.num 0
    | Option.some t => jsOr t.critical_change (.num 0)
  let complaintsTrend :=
    match trendsData with
    | Option.none => JVal.num 0
    | Option.some t => jsOr t.complaints_change (.num 0)
  { active_issues := activeIssues.length, critical_issues := criticalCount,
    sla_risk_issues := slaRiskCount, complaints_today := totalComplaints,
    trend_critical_change := criticalTrend, trend_complaints_change := complaintsTrend }

/-- The settlement of one of the four parallel reads: resolved with a
payload (Option, none for a falsy body) or rejected with an error. -/
inductive FetchResult (α : Type) where
  | ok (value : α)
  | err (e : FetchErr)

/-- The Promise.all join over the four reads: all four payloads when every
read resolves, otherwise a rejection error.  (Promise.all rejects with
whichever read rejects first in time; the model takes the first rejection
in argument order, and no claim depends on which of several simultaneous
rejections is reported.) -/
def promiseAll4 {α β γ δ : Type} :
    FetchResult α → FetchResult β → FetchResult γ → FetchResult δ → FetchResult (α × β × γ × δ)
  | .ok a, .ok b, .ok c, .ok d => .ok (a, b, c, d)
  | .err e, _, _, _ => .err e
  | _, .err e, _, _ => .err e
  | _, _, .err e, _ => .err e
  | _, _, _, .err e => .err e

/-- The dashboard state written by fetchDashboardData: the four snapshot
fields, the summary stats and the user-facing error message. -/
structure DashState (H S : Type) where
  health : Option H
  issues : Option IssuesPayload
  slaTimers : Option S
  trends : Option TrendsData
  summaryStats : SummaryStats
  error : Option String

/-- The catch branch of fetchDashboardData: all four snapshot fields
cleared, summary stats reset to zero, and the classified message
installed. -/
def errorResetState {H S : Type} (e : FetchErr) : DashState H S :=
  { health := none, issues := none, slaTimers := none, trends := none,
    summaryStats := initialSummaryStats, error := some (classifyError e) }

/-- The deliberately thrown error when the issues payload is falsy on an
otherwise successful join. -/
def noIssuesDataError : FetchErr :=
  { message := some "No issues data received from server", responseStatus := none }

/-- One fetch of fetchDashboardData as a pure state transformer over the
settled results of the four reads: join them, throw on a falsy issues
payload, otherwise install the new snapshot, recompute the summary stats
and clear the error.  Both the success and the catch branch overwrite the
whole state, so the previous state never leaks through. -/
def fetchDashboardData {H S : Type}
    (healthRead : FetchResult (Option H)) (issuesRead : FetchResult (Option IssuesPayload))
    (slaRead : FetchResult (Option S)) (trendsRead : FetchResult (Option TrendsData))
    (_prev : DashState H S) : DashState H S :=
  match promiseAll4 healthRead issuesRead slaRead trendsRead with
  | .err e => errorResetState e
  | .ok (healthData, issuesData, slaData, trendsData) =>
    match issuesData with
    | Option.none => errorResetState noIssuesDataError
    | Option.some payload =>
      { health := healthData, issues := some payload, slaTimers := slaData, trends := trendsData,
        summaryStats := calculateSummaryStats healthData (some payload) slaData trendsData,
        error := none }

/-- A minimal issue carrying only a hostel value, for the concrete
scenario of the availableValues claim. -/
def hostelIssue (h : String) : Issue := { hostel := some h }

/-- The concrete record refuting the nullish-coalescing reading of the
complaints sum: complaints.total present but 0, complaint_count 5. -/
def overCountedIssue : Issue :=
  { status := some "OPEN", complaintsTotal := .num 0, complaintCount := .num 5 }

/-- C3 (counterexample): at filtered count 0 the code derives totalPages
equal to 0, while the claimed formula max(1, ceil(0 / 20)) gives 1, so
the claimed floor at 1 is absent from the code. -/
theorem totalPages_zero_ne_spec :
    totalPages 0 = 0 ∧ specTotalPages 0 = 1 ∧ totalPages 0 ≠ specTotalPages 0 := by
  decide

/-- C3 (amended): for every positive filtered count, the derived page
count equals max(1, ceil(count / 20)) and is the exact ceiling of
count / 20; the claimed floor at 1 only matters at count 0, where the
code yields 0, not 1. -/
theorem totalPages_pos_eq_spec (n : Nat) (h : 1 ≤ n) :
    totalPages n = specTotalPages n ∧
    itemsPerPage * (totalPages n - 1) < n ∧ n ≤ itemsPerPage * totalPages n := by
  unfold totalPages specTotalPages itemsPerPage
  omega

theorem totalPages_pos_eq_spec_witness :
    1 ≤ 45 ∧
    (totalPages 45 = specTotalPages 45 ∧
     itemsPerPage * (totalPages 45 - 1) < 45 ∧ 45 ≤ itemsPerPage * totalPages 45) :=
  ⟨by decide, totalPages_pos_eq_spec 45 (by decide)⟩

/-- C8: goToPage installs the requested page exactly when it lies in
[1, totalPages] and otherwise leaves the current page unchanged; in
particular pages 0 and totalPages + 1 never change it. -/
theorem goToPage_cases (tp n cp : Nat) :
    ((1 ≤ n ∧ n ≤ tp) ∧ goToPage tp n cp = n ∨ (n < 1 ∨ tp < n) ∧ goToPage tp n cp = cp) ∧
    goToPage tp 0 cp = cp ∧ goToPage tp (tp + 1) cp = cp := by
  unfold goToPage
  refine ⟨?_, if_neg (by omega), if_neg (by omega)⟩
  by_cases h : 1 ≤ n ∧ n ≤ tp
  · exact Or.inl ⟨h, if_pos h⟩
  · exact Or.inr ⟨by omega, if_neg h⟩

/-- C6: for a current page within [1, totalPages], the visible window is
[1..totalPages] when totalPages ≤ 5, else [1..5] near the start, else the
last five pages near the end, else the five pages centred on the current
page; the window never holds more than five numbers. -/
theorem paginationNumbers_window (p tp : Nat) (h1 : 1 ≤ p) (h2 : p ≤ tp) :
    (paginationNumbers p tp).length ≤ 5 ∧
    (tp ≤ 5 → paginationNumbers p tp = List.range' 1 tp) ∧
    (5 < tp → p ≤ 3 → paginationNumbers p tp = List.range' 1 5) ∧
    (5 < tp → tp - 2 ≤ p → paginationNumbers p tp = List.range' (tp - 4) 5) ∧
    (5 < tp → 3 < p → p < tp - 2 → paginationNumbers p tp = List.range' (p - 2) 5) := by
  unfold paginationNumbers
  refine ⟨?_, ?_, ?_, ?_, ?_⟩
  · split
    · simp only [List.length_range']
      omega
    · split
      · simp
      · split <;> simp
  · intro h
    rw [if_pos h]
  · intro h5 hp
    rw [if_neg (by omega), if_pos hp]
  · intro h5 hge
    rw [if_neg (by omega), if_neg (by omega), if_pos hge]
  · intro h5 h3 hlt
    rw [if_neg (by omega), if_neg (by omega), if_neg (by omega)]

theorem paginationNumbers_window_witness :
    1 ≤ 4 ∧ 4 ≤ 10 ∧
    ((paginationNumbers 4 10).length ≤ 5 ∧
     (10 ≤ 5 → paginationNumbers 4 10 = List.range' 1 10) ∧
     (5 < 10 → 4 ≤ 3 → paginationNumbers 4 10 = List.range' 1 5) ∧
     (5 < 10 → 10 - 2 ≤ 4 → paginationNumbers 4 10 = List.range' (10 - 4) 5) ∧
     (5 < 10 → 3 < 4 → 4 < 10 - 2 → paginationNumbers 4 10 = List.range' (4 - 2) 5)) :=
  ⟨by decide, by decide, paginationNumbers_window 4 10 (by decide) (by decide)⟩

/-- C4: every filter mutation dispatched through the app resets the
table's current page to 1, whatever it was before, so the next page
window is computed at page 1 and is the initial window
[1 .. min totalPages 5]. -/
theorem dispatchMutation_resets_currentPage (issues : List Issue) (m : FilterMutation)
    (s : TableViewState) :
    (dispatchMutation issues m s).currentPage = 1 ∧
    ∀ tp : Nat,
      paginationNumbers (dispatchMutation issues m s).currentPage tp = List.range' 1 (min tp 5) := by
  refine ⟨rfl, ?_⟩
  intro tp
  show paginationNumbers 1 tp = List.range' 1 (min tp 5)
  unfold paginationNumbers
  by_cases h : tp ≤ 5
  · rw [if_pos h, Nat.min_eq_left h]
  · rw [if_neg h, if_pos (by omega), Nat.min_eq_right (by omega)]

/-- C1: when all four reads settle without rejecting but the issues
payload is falsy, the fetch is treated as a hard error: all four snapshot
fields become null, the summary stats reset to all zeros, and the
no-data message is reported, with nothing from the fetch left
installed. -/
theorem fetchDashboardData_nullIssues_clears (H S : Type) (h : Option H) (s : Option S)
    (t : Option TrendsData) (prev : DashState H S) :
    (fetchDashboardData (.ok h) (.ok none) (.ok s) (.ok t) prev).health = none ∧
    (fetchDashboardData (.ok h) (.ok none) (.ok s) (.ok t) prev).issues = none ∧
    (fetchDashboardData (.ok h) (.ok none) (.ok s) (.ok t) prev).slaTimers = none ∧
    (fetchDashboardData (.ok h) (.ok none) (.ok s) (.ok t) prev).trends = none ∧
    (fetchDashboardData (.ok h) (.ok none) (.ok s) (.ok t) prev).summaryStats
      = initialSummaryStats ∧
    (fetchDashboardData (.ok h) (.ok none) (.ok s) (.ok t) prev).error
      = some "Server returned empty data. Please try again." := by
  refine ⟨rfl, rfl, rfl, rfl, rfl, ?_⟩
  show some (classifyError noIssuesDataError) = _
  rfl

/-- C9 (counterexample): an HTTP 502 failure is classified with the
generic retry message, not the server-error message, because the code
compares the status to 500 exactly rather than to the 5xx range. -/
theorem classifyError_502_generic :
    classifyError { message := some "Request failed with status code 502", responseStatus := some 502 }
      = "Failed to load dashboard data. Please refresh or try again later." ∧
    classifyError { message := some "Request failed with status code 502", responseStatus := some 502 }
      ≠ "Server error. Please try again later." := by
  constructor
  · rfl
  · decide

/-- C9 (amended): with a response status in the 5xx range, the derived
message is the server-error message exactly when the status is 500;
every other 5xx status falls through to the generic retry message
(provided the error is not the deliberate no-data error and its message
does not contain 'Network Error'). -/
theorem classifyError_5xx (msg : Option String) (s : Nat)
    (h1 : 500 ≤ s) (h2 : s ≤ 599)
    (h3 : msg ≠ some "No issues data received from server")
    (h4 : msgIncludesNetworkError msg = false) :
    classifyError { message := msg, responseStatus := some s }
      = if s = 500 then "Server error. Please try again later."
        else "Failed to load dashboard data. Please refresh or try again later." := by
  simp only [classifyError]
  rw [if_neg h3]
  rw [if_neg (show ¬ ((some s : Option Nat) = some 404) by
    simp only [Option.some.injEq]; omega)]
  by_cases h500 : s = 500
  · subst h500
    rw [if_pos rfl, if_pos rfl]
  · rw [if_neg (show ¬ ((some s : Option Nat) = some 500) by
      simp only [Option.some.injEq]; exact h500)]
    rw [if_neg (by simp [h4]), if_neg h500]

theorem classifyError_5xx_witness :
    500 ≤ 503 ∧ 503 ≤ 599 ∧
    (some "Request failed with status code 503" : Option String)
      ≠ some "No issues data received from server" ∧
    msgIncludesNetworkError (some "Request failed with status code 503") = false ∧
    classifyError { message := some "Request failed with status code 503", responseStatus := some 503 }
      = if 503 = 500 then "Server error. Please try again later."
        else "Failed to load dashboard data. Please refresh or try again later." :=
  ⟨by decide, by decide, by decide, by decide,
    classifyError_5xx (some "Request failed with status code 503") 503
      (by decide) (by decide) (by decide) (by decide)⟩

/-- Folding additive contributions from the left equals the sum of the
mapped contributions. -/
theorem foldl_add_eq_sum_map (f : Issue → Int) :
    ∀ (l : List Issue) (a : Int),
      l.foldl (fun acc issue => acc + f issue) a = a + (l.map f).sum := by
  intro l
  induction l with
  | nil => intro a; simp
  | cons x xs ih => intro a; simp [ih, add_assoc]

/-- C5 (counterexample): for an active issue whose complaints.total is
present but 0 and whose complaint_count is 5, the code's or-chain skips
the 0 and sums 5, while the claimed nullish chain would keep the present
0. -/
theorem complaintsToday_zero_total_counterexample :
    (@calculateSummaryStats Unit Unit none (some { issues := some [overCountedIssue] }) none
        none).complaints_today = 5 ∧
    specComplaintsToday [overCountedIssue] = 0 ∧
    (@calculateSummaryStats Unit Unit none (some { issues := some [overCountedIssue] }) none
        none).complaints_today ≠ specComplaintsToday [overCountedIssue] := by
  refine ⟨rfl, rfl, by decide⟩

/-- C5 (amended): complaints_today is the sum over the active issues of
the first truthy of complaints.total, complaint_count and 0 (the
JavaScript or-chain, so a present-but-0 or otherwise falsy total falls
through to complaint_count), with the surviving value coerced to 0 when
it is not a number; the sum is a total function of the list, so no single
malformed record aborts it. -/
theorem complaintsToday_or_chain (H S : Type) (healthData : Option H)
    (issuesData : Option IssuesPayload) (slaData : Option S) (trendsData : Option TrendsData) :
    (calculateSummaryStats healthData issuesData slaData trendsData).complaints_today
      = ((activeIssuesOf (issuesOf issuesData)).map complaintsContribution).sum ∧
    ∀ issue : Issue,
      complaintsContribution issue
        = if issue.complaintsTotal.truthy then jsToNumber issue.complaintsTotal
          else if issue.complaintCount.truthy then jsToNumber issue.complaintCount
          else 0 := by
  constructor
  · show (activeIssuesOf (issuesOf issuesData)).foldl
        (fun acc issue => acc + complaintsContribution issue) 0 = _
    rw [foldl_add_eq_sum_map]
    simp
  · intro issue
    unfold complaintsContribution jsOr
    by_cases ht : issue.complaintsTotal.truthy
    · rw [if_pos ht, if_pos ht]
    · rw [if_neg ht, if_neg ht]
      by_cases hc : issue.complaintCount.truthy
      · rw [if_pos hc, if_pos hc]
      · rw [if_neg hc, if_neg hc]
        rfl

/-- One dimension block passes exactly when the claim's per-dimension
condition holds: an empty admitted list constrains nothing, and otherwise
the projected value must exist and be admitted. -/
theorem dimPass_iff (admitted : List String) (v : Option String) :
    dimPass admitted v = true ↔ (admitted ≠ [] → ∃ s, v = some s ∧ s ∈ admitted) := by
  unfold dimPass
  by_cases h : admitted.isEmpty
  · have h' : admitted = [] := by simpa using h
    subst h'
    cases v <;> simp
  · have h' : admitted ≠ [] := by simpa using h
    rw [if_neg h]
    cases v with
    | none => simp [h']
    | some s =>
      simp only [List.elem_iff, Option.some.injEq]
      constructor
      · intro hm _
        exact ⟨s, rfl, hm⟩
      · intro hi
        obtain ⟨t, hts, htm⟩ := hi h'
        exact hts ▸ htm

/-- The full filter predicate matches the claim's characterization: not
RESOLVED, and every dimension with a non-empty admitted list admits the
issue's projected value. -/
theorem issuePasses_iff (f : FilterState) (x : Issue) :
    issuePasses f x = true ↔
      x.status ≠ some "RESOLVED" ∧
      ∀ d : Dimension, f.getDim d ≠ [] → ∃ s, projectDim d x = some s ∧ s ∈ f.getDim d := by
  unfold issuePasses
  simp only [Bool.and_eq_true, bne_iff_ne, ne_eq, dimPass_iff]
  constructor
  · rintro ⟨⟨⟨⟨⟨⟨h0, h1⟩, h2⟩, h3⟩, h4⟩, h5⟩, h6⟩
    refine ⟨h0, ?_⟩
    intro d
    cases d
    · exact h1
    · exact h2
    · exact h3
    · exact h4
    · exact h5
    · exact h6
  · rintro ⟨h0, hd⟩
    exact ⟨⟨⟨⟨⟨⟨h0, hd .priority⟩, hd .severity⟩, hd .health⟩, hd .category⟩, hd .hostel⟩,
      hd .slaStatus⟩

/-- C2: an issue is in the filtered list exactly when it is drawn from
the input, is not RESOLVED, and, for every dimension whose admitted set
is non-empty, its projected value exists and is admitted; hence the
result is always a subset of the non-RESOLVED input issues, an absent
value fails every constrained dimension, and an empty admitted set
constrains nothing. -/
theorem filteredIssues_mem_iff (f : FilterState) (issues : List Issue) (x : Issue) :
    x ∈ filteredIssues f issues ↔
      x ∈ issues ∧ x.status ≠ some "RESOLVED" ∧
      ∀ d : Dimension, f.getDim d ≠ [] → ∃ s, projectDim d x = some s ∧ s ∈ f.getDim d := by
  unfold filteredIssues
  by_cases h : issues.isEmpty
  · have h' : issues = [] := by simpa using h
    subst h'
    simp
  · rw [if_neg h]
    simp only [List.mem_filter, issuePasses_iff, and_assoc]

/-- C7: availableValues returns the sorted, duplicate-free list of
exactly the projected values present in the issue list; on three issues
with hostels B, A, A it returns [A, B], and on the empty issue list it
returns the empty list. -/
theorem getUniqueValues_spec (key : Dimension) (issues : List Issue) :
    (getUniqueValues key issues).Sorted (fun a b => a ≤ b) ∧
    (getUniqueValues key issues).Nodup ∧
    (∀ v, v ∈ getUniqueValues key issues ↔ ∃ i, i ∈ issues ∧ projectDim key i = some v) ∧
    getUniqueValues .hostel [hostelIssue "B", hostelIssue "A", hostelIssue "A"] = ["A", "B"] ∧
    getUniqueValues key [] = [] := by
  refine ⟨?_, ?_, ?_, ?_, rfl⟩
  · unfold getUniqueValues
    split
    · simp
    · exact List.sorted_insertionSort _ _
  · unfold getUniqueValues
    split
    · simp
    · exact ((List.perm_insertionSort _ _).nodup_iff).mpr (List.nodup_dedup _)
  · intro v
    unfold getUniqueValues
    by_cases h : issues.isEmpty
    · have h' : issues = [] := by simpa using h
      subst h'
      simp
    · rw [if_neg h]
      rw [(List.perm_insertionSort _ _).mem_iff]
      simp [List.mem_dedup, List.mem_filterMap]
  · simp [getUniqueValues, hostelIssue, projectDim, List.dedup_cons_of_mem,
      List.dedup_cons_of_not_mem, List.insertionSort, List.orderedInsert]
    decide

/-- Changing one dimension's admitted list leaves every other dimension's
list untouched. -/
theorem getDim_setDim_ne (f : FilterState) (d d' : Dimension) (vs : List String) (h : d' ≠ d) :
    (f.setDim d vs).getDim d' = f.getDim d' := by
  cases d <;> cases d' <;> first | rfl | exact absurd rfl h

/-- C10: every single-dimension mutation (toggleValue, selectAll,
selectNone, removeValue) changes at most its own dimension: for every
other dimension, the admitted list after the mutation equals the admitted
list before. -/
theorem mutations_frame_other_dimensions (f : FilterState) (issues : List Issue)
    (d d' : Dimension) (v : String) (h : d' ≠ d) :
    (toggleValue f d v).getDim d' = f.getDim d' ∧
    (selectAll issues f d).getDim d' = f.getDim d' ∧
    (selectNone f d).getDim d' = f.getDim d' ∧
    (removeValue f d v).getDim d' = f.getDim d' := by
  refine ⟨?_, ?_, ?_, ?_⟩
  · simp only [toggleValue]
    split
    · exact getDim_setDim_ne f d d' _ h
    · exact getDim_setDim_ne f d d' _ h
  · exact getDim_setDim_ne f d d' _ h
  · exact getDim_setDim_ne f d d' _ h
  · exact getDim_setDim_ne f d d' _ h

theorem mutations_frame_witness :
    Dimension.hostel ≠ Dimension.priority ∧
    ((toggleValue { priority := ["HIGH"], hostel := ["A"] } .priority "CRITICAL").getDim .hostel
        = FilterState.getDim { priority := ["HIGH"], hostel := ["A"] } .hostel ∧
      (selectAll [] { priority := ["HIGH"], hostel := ["A"] } .priority).getDim .hostel
        = FilterState.getDim { priority := ["HIGH"], hostel := ["A"] } .hostel ∧
      (selectNone { priority := ["HIGH"], hostel := ["A"] } .priority).getDim .hostel
        = FilterState.getDim { priority := ["HIGH"], hostel := ["A"] } .hostel ∧
      (removeValue { priority := ["HIGH"], hostel := ["A"] } .priority "CRITICAL").getDim .hostel
        = FilterState.getDim { priority := ["HIGH"], hostel := ["A"] } .hostel) :=
  ⟨by decide,
    mutations_frame_other_dimensions { priority := ["HIGH"], hostel := ["A"] } [] .priority
      .hostel "CRITICAL" (by decide)⟩
